import Mathlib

/-!
Verification of the Telltale prediction server (`src/main.py`).

Shallow embedding of the report exporter, the image-preprocessing steps,
the model registry and the prediction-ranking logic, together with
theorems settling the specification's claims about them.  Machine
numbers are embedded as `Nat`/`Int`; the exact rational `ℚ` stands for
the Python float averages (which are exact for the small integer sums
involved); fallible code returns `Option`/`Except`.
-/

namespace Telltale

/-! ## Report exporter (`export_report`, `src/main.py` lines 258-303)

The handler runs its whole body inside a `try` block; any exception,
including the `HTTPException(400)` it raises itself for an empty input
list, is caught by the blanket `except Exception` clause and re-raised
as an `HTTPException(500)` wrapping the exception text. -/

/-- An exception crossing the `try` boundary of `export_report`.  Only
`HTTPException` arises in the embedded paths. -/
inductive PyExn where
  | httpExn (status : Nat) (detail : String)
deriving DecidableEq

/-- Python `str(e)` for a `fastapi.HTTPException`: "status: detail". -/
def pyExnStr : PyExn → String
  | .httpExn status detail => toString status ++ ": " ++ detail

/-- Python `str.lower`, character by character (the inputs involved are
ASCII). -/
def pyLower (s : String) : String := ⟨s.data.map Char.toLower⟩

/-- Python `str.endswith`: the second string is a suffix of the first. -/
def pyEndsWith (s t : String) : Bool := t.data.isSuffixOf s.data

/-- The rows of the spreadsheet's second sheet (the `metadata` dict of
`export_report`), as (field, value) pairs. -/
def reportMetadata (timestamp : String) (total : Nat) : List (String × String) :=
  [("Export Timestamp", timestamp),
   ("Total Images", toString total),
   ("System", "Telltale AI Production v2.0"),
   ("Model", "EfficientNetB7-Batch")]

/-- The HTTP-level outcomes of `export_report`: an xlsx streaming
response (report sheet plus metadata sheet), a CSV streaming response,
or an `HTTPException` escaping the handler. -/
inductive ExportOutcome (α : Type) where
  | xlsxStream (reportSheetName : String) (reportRows : List α)
      (metaSheetName : String) (metaRows : List (String × String))
  | csvStream (rows : List α)
  | httpError (status : Nat) (detail : String)
deriving DecidableEq

/-- The `try` body of `export_report` (lines 260-299).  Rows are kept
abstract in `α`: the exporter never inspects them. -/
def export_report_body (α : Type) (timestamp : String) (results : List α)
    (format : String) : Except PyExn (ExportOutcome α) :=
  if results.isEmpty then
    .error (.httpExn 400 "No results to export")
  else if pyLower format = "xlsx" then
    .ok (.xlsxStream "Prediction Report" results
          "Metadata" (reportMetadata timestamp results.length))
  else
    .ok (.csvStream results)

/-- `export_report` (lines 258-303): the `try` body, with the
`except Exception` clause converting any escaping exception into a 500
server error wrapping the exception text. -/
def export_report (α : Type) (timestamp : String) (results : List α)
    (format : String) : ExportOutcome α :=
  match export_report_body α timestamp results format with
  | .ok r => r
  | .error e => .httpError 500 ("Report generation failed: " ++ pyExnStr e)

/-- Claim C1: exporting an empty result list does NOT fail with a client
(4xx) error.  The `HTTPException(400)` raised inside the `try` block is
caught by the blanket `except Exception` clause and re-raised as a 500
server error; this theorem evaluates `export_report` at the failing
input. -/
theorem export_report_empty_is_server_error :
    export_report Nat "2026-10-12 00:00:00" [] "xlsx"
      = .httpError 500 "Report generation failed: 400: No results to export" := rfl

/-- Claim C4, counterexample: the format value "XLSX" differs from
"xlsx", yet the exporter lowercases it and produces the spreadsheet
stream, not CSV; so "any format value other than xlsx yields CSV" fails
at format = "XLSX". -/
theorem export_report_format_case_counterexample :
    "XLSX" ≠ "xlsx" ∧
      export_report Nat "t" [7] "XLSX"
        = .xlsxStream "Prediction Report" [7] "Metadata" (reportMetadata "t" 1) :=
  ⟨by decide, rfl⟩

/-- Claim C4 (amended): for a non-empty record list, a format whose
lowercased form is "xlsx" yields the two-sheet spreadsheet stream (the
report sheet plus a metadata sheet holding the timestamp, the record
count and two fixed descriptive strings), and any format whose
lowercased form is not "xlsx" yields a CSV stream of the rows. -/
theorem export_report_nonempty (α : Type) (timestamp : String)
    (results : List α) (format : String) (hne : results ≠ []) :
    (pyLower format = "xlsx" →
      export_report α timestamp results format
        = .xlsxStream "Prediction Report" results "Metadata"
            (reportMetadata timestamp results.length)) ∧
    (pyLower format ≠ "xlsx" →
      export_report α timestamp results format = .csvStream results) := by
  have h : results.isEmpty = false := by
    simp [List.isEmpty_iff, hne]
  constructor <;> intro hf <;>
    simp [export_report, export_report_body, h, hf]

/-- Witness for C4: a concrete non-empty export in a non-xlsx format is
a CSV stream. -/
theorem export_report_nonempty_witness :
    export_report Nat "t" [3] "csv" = ExportOutcome.csvStream [3] :=
  (export_report_nonempty Nat "t" [3] "csv" (by decide)).2 (by decide)

/-! ## Image preprocessing, pixel level (`preprocess_image`, lines 110-172) -/

/-- An RGBA pixel as decoded by PIL, channels in 0..255. -/
structure RGBA where
  r : Nat
  g : Nat
  b : Nat
  a : Nat
deriving DecidableEq

/-- The pixels selected by `mask = alpha > 10` (line 120). -/
def maskedPixels (px : List RGBA) : List RGBA :=
  px.filter (fun p => 10 < p.a)

/-- The sum of every colour channel of every masked pixel. -/
def contentSum (px : List RGBA) : Nat :=
  ((maskedPixels px).map (fun p => p.r + p.g + p.b)).sum

/-- `np.mean (rgb[mask])` (line 123) as an exact rational. -/
def avgContent (px : List RGBA) : ℚ :=
  (contentSum px : ℚ) / (3 * (maskedPixels px).length)

/-- Background-colour selection of the alpha-compositing step
(lines 122-132): white when the masked mean brightness is below 128,
black otherwise, and black when no pixel clears the alpha threshold. -/
def bg_color (px : List RGBA) : Nat × Nat × Nat :=
  if (maskedPixels px).isEmpty then (0, 0, 0)
  else if avgContent px < 128 then (255, 255, 255)
  else (0, 0, 0)

/-- Claim C5: the compositing step picks the white background exactly
when some pixel clears the alpha threshold and the masked mean
brightness is below mid-gray (128); it picks black otherwise, and black
by default when no pixel clears the threshold.  Stated for every pixel
list, hence for every image size. -/
theorem bg_color_spec (px : List RGBA) :
    (maskedPixels px ≠ [] →
      (bg_color px = (255, 255, 255) ↔ avgContent px < 128) ∧
      (bg_color px = (0, 0, 0) ↔ ¬ avgContent px < 128)) ∧
    (maskedPixels px = [] → bg_color px = (0, 0, 0)) := by
  constructor
  · intro hne
    have h : (maskedPixels px).isEmpty = false := by
      simp [List.isEmpty_iff, hne]
    by_cases hc : avgContent px < 128 <;> simp [bg_color, h, hc]
    all_goals decide
  · intro he
    simp [bg_color, he]

/-- Witness for C5: a single opaque black pixel selects the white
background. -/
theorem bg_color_spec_witness :
    bg_color [⟨0, 0, 0, 255⟩] = (255, 255, 255) := by
  refine ((bg_color_spec [⟨0, 0, 0, 255⟩]).1 (by decide)).1.mpr ?_
  norm_num [avgContent, contentSum, maskedPixels, List.filter]

/-- A grayscale image as its rows of 0..255 pixel values;
`getpixel ((x, y))` reads row `y`, column `x`. -/
def grayGet (g : List (List Nat)) (x y : Nat) : Nat :=
  (g.getD y []).getD x 0

/-- The sum of the four corner samples of the polarity step
(lines 143-149), with width taken from the first row. -/
def cornerSum (g : List (List Nat)) : Nat :=
  grayGet g 0 0 + grayGet g ((g.getD 0 []).length - 1) 0
    + grayGet g 0 (g.length - 1)
    + grayGet g ((g.getD 0 []).length - 1) (g.length - 1)

/-- `avg_bg = sum (corners) / 4` (line 150) as an exact rational. -/
def avgCorners (g : List (List Nat)) : ℚ := (cornerSum g : ℚ) / 4

/-- `ImageOps.invert`: every pixel value `p` becomes `255 - p`. -/
def invertImage (g : List (List Nat)) : List (List Nat) :=
  g.map (fun row => row.map (fun p => 255 - p))

/-- The polarity-normalization step (lines 142-154): invert the
grayscale image when `avg_bg > 127`. -/
def polarity_normalize (g : List (List Nat)) : List (List Nat) :=
  if 127 < avgCorners g then invertImage g else g

/-- Claim C2, counterexample: a 1-by-1 image of value 128 (all four
corner samples coincide) has corner average exactly 128, which does not
exceed 128, yet the code inverts it, because line 152 tests
`avg_bg > 127`. -/
theorem polarity_counterexample :
    ¬ 128 < avgCorners [[128]] ∧
      polarity_normalize [[128]] = invertImage [[128]] ∧
      invertImage [[128]] ≠ [[128]] := by
  refine ⟨by norm_num [avgCorners, cornerSum, grayGet], ?_, by decide⟩
  rw [polarity_normalize, if_pos (by norm_num [avgCorners, cornerSum, grayGet])]

/-- Claim C2 (amended): for a nonempty grayscale image, the polarity
step inverts the image if and only if the average of the four corner
samples exceeds 127 (the code tests `avg_bg > 127`, not `> 128`). -/
theorem polarity_inverts_iff (g : List (List Nat))
    (hh : 0 < g.length) (hw : 0 < (g.getD 0 []).length) :
    polarity_normalize g = invertImage g ↔ 127 < avgCorners g := by
  constructor
  · intro hEq
    by_contra hc
    rw [polarity_normalize, if_neg hc] at hEq
    cases g with
    | nil => simp at hh
    | cons row rest =>
      cases row with
      | nil => simp at hw
      | cons p ps =>
        have hp : p = 255 - p := by
          have h0 := congrArg (fun l => grayGet l 0 0) hEq
          simpa [grayGet, invertImage] using h0
        omega
  · intro hc
    rw [polarity_normalize, if_pos hc]

/-- Witness for C2: a 1-by-1 image of value 200 has corner average 200,
which exceeds 127, so the step inverts it. -/
theorem polarity_inverts_iff_witness :
    polarity_normalize [[200]] = invertImage [[200]] := by
  refine (polarity_inverts_iff [[200]] (by decide) (by decide)).mpr ?_
  norm_num [avgCorners, cornerSum, grayGet]

/-! ## Model registry (lines 26-108) -/

/-- What the embedding needs of a loaded Keras model: its reported input
shape.  An entry is a concrete dimension or the unconstrained batch
dimension, modelled as `none`. -/
structure ModelData where
  input_shape : List (Option Nat)
deriving DecidableEq

/-- The process-wide mutable state (lines 31-35). -/
structure ServerState where
  model : Option ModelData
  class_names : List String
  img_size : Nat × Nat
  current_model_name : String
deriving DecidableEq

/-- The initial state of lines 32-35. -/
def initialState : ServerState :=
  { model := none, class_names := [], img_size := (224, 224),
    current_model_name := "14_telltael_v1" }

/-- The filesystem facts `load_model_assets` consults: the models
directory path and, per model name, whether `model.keras` and
`class_map.json` exist and what they hold. -/
structure AssetsFs where
  models_dir : String
  modelFileExists : String → Bool
  classMapExists : String → Bool
  loadModel : String → ModelData
  classMap : String → List (String × Nat)

/-- Comparison of (name, index) class-map entries by index, the key used
by `sorted (classes_dict.items(), key ...)` on line 56. -/
def idxLe (a b : String × Nat) : Prop := a.2 ≤ b.2

instance : DecidableRel idxLe := fun a b => Nat.decLe a.2 b.2

instance : IsTotal (String × Nat) idxLe := ⟨fun a b => Nat.le_total a.2 b.2⟩

instance : IsTrans (String × Nat) idxLe := ⟨fun _ _ _ h h2 => Nat.le_trans h h2⟩

/-- Class-map loading (lines 54-57): sort the (name, index) entries by
index ascending — Python `sorted` is stable, matched by `insertionSort`
with a `≤` comparison — and keep the names in that order. -/
def sortedClassNames (entries : List (String × Nat)) : List String :=
  (List.insertionSort idxLe entries).map Prod.fst

/-- `IMG_SIZE` auto-detection (lines 64-66): when the model reports a
nonempty 4-entry input shape, take entries 1 and 2.  For a real model
those are concrete dimensions; a `none` there would fault in the source
and is defaulted to 0 here. -/
def detectImgSize (m : ModelData) (dflt : Nat × Nat) : Nat × Nat :=
  if m.input_shape ≠ [] ∧ m.input_shape.length = 4 then
    ((m.input_shape.getD 1 none).getD 0, (m.input_shape.getD 2 none).getD 0)
  else dflt

/-- `load_model_assets` (lines 37-68): check that both asset files
exist — raising `FileNotFoundError` before touching any global — then
replace the whole active-model state. -/
def load_model_assets (fs : AssetsFs) (model_name : String) (st : ServerState) :
    Except String ServerState :=
  if fs.modelFileExists model_name = false then
    .error ("Model file not found at "
      ++ fs.models_dir ++ "/" ++ model_name ++ "/model.keras")
  else if fs.classMapExists model_name = false then
    .error ("Class map not found at "
      ++ fs.models_dir ++ "/" ++ model_name ++ "/class_map.json")
  else
    let new_model := fs.loadModel model_name
    .ok { model := some new_model,
          class_names := sortedClassNames (fs.classMap model_name),
          img_size := detectImgSize new_model st.img_size,
          current_model_name := model_name }

/-- `switch_model` (lines 102-108): on success a success payload and the
new state; on any exception an `HTTPException(400)` carrying the
exception text, with the state untouched. -/
def switch_model (fs : AssetsFs) (name : String) (st : ServerState) :
    Except (Nat × String) String × ServerState :=
  match load_model_assets fs name st with
  | .ok st2 => (.ok name, st2)
  | .error e => (.error (400, e), st)

/-- Claim C3: when the model file or the class-map file of the requested
name is missing, `switch_model` reports a 400 client error and the whole
active-model state is unchanged. -/
theorem switch_model_missing_asset (fs : AssetsFs) (name : String)
    (st : ServerState)
    (hmiss : fs.modelFileExists name = false ∨ fs.classMapExists name = false) :
    (switch_model fs name st).2 = st ∧
      ∃ msg, (switch_model fs name st).1 = Except.error (400, msg) := by
  cases hb : fs.modelFileExists name with
  | false =>
    refine ⟨?_, "Model file not found at "
        ++ fs.models_dir ++ "/" ++ name ++ "/model.keras", ?_⟩ <;>
      simp [switch_model, load_model_assets, hb]
  | true =>
    have hc : fs.classMapExists name = false := by
      rcases hmiss with h | h
      · rw [hb] at h; exact absurd h (by simp)
      · exact h
    refine ⟨?_, "Class map not found at "
        ++ fs.models_dir ++ "/" ++ name ++ "/class_map.json", ?_⟩ <;>
      simp [switch_model, load_model_assets, hb, hc]

/-- A filesystem with no model assets at all. -/
def fsNoAssets : AssetsFs :=
  { models_dir := "models",
    modelFileExists := fun _ => false,
    classMapExists := fun _ => false,
    loadModel := fun _ => ⟨[]⟩,
    classMap := fun _ => [] }

/-- Witness for C3: switching to a name absent from the models directory
leaves the initial state intact and yields a 400. -/
theorem switch_model_missing_asset_witness :
    (switch_model fsNoAssets "ghost" initialState).2 = initialState ∧
      ∃ msg, (switch_model fsNoAssets "ghost" initialState).1
        = Except.error (400, msg) :=
  switch_model_missing_asset fsNoAssets "ghost" initialState (Or.inl rfl)

/-- `class_names[idx] if idx < len(class_names) else "Unknown"`
(lines 195 and 232). -/
def labelOf (names : List String) (i : Nat) : String :=
  if h : i < names.length then names.get ⟨i, h⟩ else "Unknown"

/-- Claim C8: when a class map's indices are exactly 0..n-1, in whatever
storage order, sorting by index ascending places the entry carrying
index i at position i, so the prediction lookup at output index i
returns exactly that entry's name. -/
theorem class_map_position (entries : List (String × Nat)) (n : Nat)
    (hperm : (entries.map Prod.snd).Perm (List.range n)) :
    ∀ p ∈ entries, labelOf (sortedClassNames entries) p.2 = p.1 := by
  intro p hp
  have hsp : (List.insertionSort idxLe entries).Perm entries :=
    List.perm_insertionSort idxLe entries
  have hmapSorted :
      ((List.insertionSort idxLe entries).map Prod.snd).Sorted (· ≤ ·) :=
    List.pairwise_map.mpr (List.sorted_insertionSort idxLe entries)
  have hmapEq :
      (List.insertionSort idxLe entries).map Prod.snd = List.range n :=
    List.eq_of_perm_of_sorted ((hsp.map Prod.snd).trans hperm) hmapSorted
      (List.sorted_le_range n)
  have hlen : (List.insertionSort idxLe entries).length = n := by
    have h0 := congrArg List.length hmapEq
    simpa using h0
  have hps : p ∈ List.insertionSort idxLe entries := hsp.mem_iff.mpr hp
  obtain ⟨⟨k, hk⟩, hget⟩ := List.mem_iff_get.mp hps
  have hk3 : k < n := hlen ▸ hk
  have h1 : (List.insertionSort idxLe entries)[k]? = some p := by
    rw [List.getElem?_eq_getElem hk]
    exact congrArg some hget
  have h2 : ((List.insertionSort idxLe entries).map Prod.snd)[k]? = some p.2 := by
    rw [List.getElem?_map, h1]
    rfl
  rw [hmapEq] at h2
  have h3 : (List.range n)[k]? = some k := by
    simp [List.getElem?_range, hk3]
  have hsnd : p.2 = k := Option.some.inj (h2.symm.trans h3)
  have hlab : (sortedClassNames entries).length = n := by
    simp [sortedClassNames, hlen]
  have hlt : p.2 < (sortedClassNames entries).length := by omega
  rw [labelOf, dif_pos hlt]
  have h5 : (sortedClassNames entries)[p.2]? = some p.1 := by
    show ((List.insertionSort idxLe entries).map Prod.fst)[p.2]? = some p.1
    rw [hsnd, List.getElem?_map, h1]
    rfl
  exact Option.some.inj ((List.getElem?_eq_getElem hlt).symm.trans h5)

/-- Witness for C8: a two-entry map stored in reverse index order is
re-sorted, and output index 1 maps to the entry carrying index 1. -/
theorem class_map_position_witness :
    labelOf (sortedClassNames [("beta", 1), ("alpha", 0)]) 1 = "beta" :=
  class_map_position [("beta", 1), ("alpha", 0)] 2 (by decide)
    ("beta", 1) (by decide)

/-- The filesystem facts `list_models` consults (lines 84-100). -/
structure ModelsFs where
  dirExists : Bool
  entries : List String
  isDir : String → Bool
  hasModelFile : String → Bool
  hasClassMap : String → Bool

/-- The directories `list_models` reports: subdirectories holding both
`model.keras` and `class_map.json` (lines 89-95). -/
def availableModels (fs : ModelsFs) : List String :=
  fs.entries.filter (fun d => fs.isDir d && (fs.hasModelFile d && fs.hasClassMap d))

/-- The two distinct response shapes `list_models` can produce. -/
inductive ModelsResponse where
  | bareList (items : List String)
  | modelsObj (models : List String) (current : String)
deriving DecidableEq

/-- `list_models` (lines 84-100): a bare empty JSON list when the models
directory is missing, otherwise an object carrying "models" and
"current" fields. -/
def list_models (fs : ModelsFs) (current : String) : ModelsResponse :=
  if fs.dirExists = false then .bareList []
  else .modelsObj (availableModels fs) current

/-- Claim C9: the model-listing response is a bare empty list exactly
when the models directory is missing, an object with the available
models and the current name otherwise, and the two shapes are never
equal — the response shape is not uniform. -/
theorem list_models_shape (fs : ModelsFs) (current : String) :
    (fs.dirExists = false → list_models fs current = .bareList []) ∧
    (fs.dirExists = true →
      list_models fs current = .modelsObj (availableModels fs) current) ∧
    (∀ items ms c, ModelsResponse.bareList items ≠ ModelsResponse.modelsObj ms c) := by
  refine ⟨fun h => by simp [list_models, h], fun h => by simp [list_models, h],
    fun items ms c h => ?_⟩
  exact ModelsResponse.noConfusion h

/-- A filesystem whose models directory is missing. -/
def fsNoDir : ModelsFs :=
  { dirExists := false, entries := [], isDir := fun _ => false,
    hasModelFile := fun _ => false, hasClassMap := fun _ => false }

/-- Witness for C9: with the models directory missing the response is
the bare empty list. -/
theorem list_models_shape_witness :
    list_models fsNoDir "14_telltael_v1" = ModelsResponse.bareList [] :=
  (list_models_shape fsNoDir "14_telltael_v1").1 rfl

/-! ## Image preprocessing, shape level (lines 110-172)

Every pixel-level step above preserves the PIL size; the tensor shape is
decided by the channel stacking, the resize and the batch dimension. -/

/-- Width and height of a PIL image. -/
structure ImgShape where
  w : Nat
  h : Nat
deriving DecidableEq

/-- Compositing pastes onto a background of `img.size` (line 135). -/
def compositeShape (s : ImgShape) : ImgShape := s

/-- `convert ("L")` keeps the PIL size (line 140). -/
def grayShape (s : ImgShape) : ImgShape := s

/-- Inversion and autocontrast are pointwise (lines 154, 157). -/
def contrastShape (s : ImgShape) : ImgShape := s

/-- `Image.resize (IMG_SIZE)` (line 165): PIL sizes are (width, height). -/
def resizeShape (img_size : Nat × Nat) (_s : ImgShape) : ImgShape :=
  ⟨img_size.1, img_size.2⟩

/-- `np.array` of a 3-channel PIL image has shape (height, width, 3);
the stacking on line 161 supplies the 3 channels. -/
def arrayShapeRGB (s : ImgShape) : List Nat := [s.h, s.w, 3]

/-- `np.expand_dims` with axis 0 (line 169) prepends a batch dimension. -/
def expandDims0 (shape : List Nat) : List Nat := 1 :: shape

/-- `efficientnet.preprocess_input` is shape-preserving (line 170). -/
def efficientnetShape (shape : List Nat) : List Nat := shape

/-- The shape-level preprocessing pipeline (lines 110-172). -/
def preprocess_image_shape (inp : ImgShape) (img_size : Nat × Nat) : List Nat :=
  efficientnetShape (expandDims0 (arrayShapeRGB
    (resizeShape img_size (contrastShape (grayShape (compositeShape inp))))))

/-- Claim C7: whatever the input image size, the preprocessed tensor has
shape (1, s, s, 3) when the active model's detected input size is the
square (s, s). -/
theorem preprocess_shape_ok (inp : ImgShape) (st : ServerState) (s : Nat)
    (hsq : st.img_size = (s, s)) :
    preprocess_image_shape inp st.img_size = [1, s, s, 3] := by
  rw [hsq]
  rfl

/-- Witness for C7: a 512-by-512 input against the default 224-square
state. -/
theorem preprocess_shape_ok_witness :
    preprocess_image_shape ⟨512, 512⟩ initialState.img_size = [1, 224, 224, 3] :=
  preprocess_shape_ok ⟨512, 512⟩ initialState 224 rfl

/-! ## Prediction ranking (lines 174-256)

Model outputs are embedded as exact integer scores: only their ordering
matters to the ranking logic. -/

/-- Comparison of (index, score) pairs by score, the key order of
`np.argsort`. -/
def scoreLe (a b : Nat × Int) : Prop := a.2 ≤ b.2

instance : DecidableRel scoreLe := fun a b => Int.decLe a.2 b.2

/-- `np.argsort (predictions)`: the indices of the scores in ascending
score order (a stable refinement of numpy's unspecified tie order). -/
def argsort (preds : List Int) : List Nat :=
  (List.insertionSort scoreLe
    ((List.range preds.length).map (fun i => (i, preds.getD i 0)))).map Prod.fst

/-- `np.argsort (predictions)[-5:][::-1]` (lines 192, 229): the last up
to five indices, highest score first. -/
def top_indices (preds : List Int) : List Nat :=
  ((argsort preds).drop ((argsort preds).length - 5)).reverse

/-- One (class, confidence) entry of the top-5 list (lines 196-199). -/
def top5Entry (preds : List Int) (names : List String) (i : Nat) : String × Int :=
  (labelOf names i, preds.getD i 0)

/-- The fields of a single-prediction response the ranking determines
(lines 204-209). -/
structure PredOut where
  prediction : String
  confidence : Int
  top5 : List (String × Int)
deriving DecidableEq

/-- The ranking part of `predict` (lines 192-202): build the top-5 list
over `top_indices`, then read `top_indices[0]` for the confidence and
the head entry for the predicted class.  With an empty score vector the
indexing faults (IndexError), modelled as `none`. -/
def predict_result (preds : List Int) (names : List String) : Option PredOut :=
  match top_indices preds with
  | [] => none
  | i0 :: rest =>
      some { prediction := (top5Entry preds names i0).1,
             confidence := preds.getD i0 0,
             top5 := (i0 :: rest).map (top5Entry preds names) }

theorem argsort_length (preds : List Int) :
    (argsort preds).length = preds.length := by
  have h := (List.perm_insertionSort scoreLe
    ((List.range preds.length).map (fun i => (i, preds.getD i 0)))).length_eq
  simp only [argsort, List.length_map]
  rw [h]
  simp

theorem top_indices_length (preds : List Int) :
    (top_indices preds).length = min 5 preds.length := by
  simp only [top_indices, List.length_reverse, List.length_drop, argsort_length]
  omega

/-- Claim C10 (amended): for a nonempty score vector the ranking
succeeds and the top-5 list has exactly min 5 (number of model outputs)
entries — in particular fewer than 5 unpadded entries when the model has
fewer than 5 outputs.  (With zero outputs the code faults instead; see
the counterexample.) -/
theorem top5_count (preds : List Int) (names : List String)
    (hne : preds ≠ []) :
    ∃ out, predict_result preds names = some out ∧
      out.top5.length = min 5 preds.length := by
  have hlen := top_indices_length preds
  have hpos : 0 < (top_indices preds).length := by
    rw [hlen]
    have h0 : 0 < preds.length := List.length_pos.mpr hne
    omega
  cases hti : top_indices preds with
  | nil => rw [hti] at hpos; simp at hpos
  | cons i0 rest =>
    refine ⟨{ prediction := (top5Entry preds names i0).1,
              confidence := preds.getD i0 0,
              top5 := (i0 :: rest).map (top5Entry preds names) }, ?_, ?_⟩
    · simp [predict_result, hti]
    · simp only [List.length_map]
      rw [← hti, hlen]

/-- Claim C10, counterexample: with an empty score vector (a model with
zero outputs) the ranking faults at `top_indices[0]` instead of
returning a result with an empty top-5 list. -/
theorem top5_count_counterexample :
    predict_result [] [] = none := rfl

/-- Witness for C10: two scores yield a result whose top-5 list has
exactly two entries. -/
theorem top5_count_witness :
    ∃ out, predict_result [5, 3] ["a", "b"] = some out ∧
      out.top5.length = min 5 ([5, 3] : List Int).length :=
  top5_count [5, 3] ["a", "b"] (by decide)

/-! ## Batch prediction (`predict_batch`, lines 213-256) -/

/-- A batch upload as `predict_batch` sees it: the filename plus the
outcome of decoding-and-inferring that file (scores on success, the
exception text on a decode or inference failure). -/
structure BatchFile where
  filename : String
  outcome : Except String (List Int)

/-- One result record of the batch response (lines 241-254); the error
record carries no top-5 list. -/
structure BatchRecord where
  filename : String
  prediction : String
  confidence : Int
  status : String
  top5 : Option (List (String × Int))

/-- The per-file body of the batch loop (lines 221-254): a success
record from the ranking, or an error record when decode, inference or
the ranking itself raises. -/
def batchRecord (names : List String) (f : BatchFile) : BatchRecord :=
  match f.outcome with
  | .error e =>
      { filename := f.filename, prediction := "Error", confidence := 0,
        status := e, top5 := none }
  | .ok preds =>
      match predict_result preds names with
      | some out =>
          { filename := f.filename, prediction := out.prediction,
            confidence := out.confidence, status := "Success",
            top5 := some out.top5 }
      | none =>
          { filename := f.filename, prediction := "Error", confidence := 0,
            status := "list index out of range", top5 := none }

/-- The name filter of line 218: `filename.lower().endswith(".png")`. -/
def isPngName (s : String) : Bool := pyEndsWith (pyLower s) ".png"

/-- `predict_batch` (lines 213-256): skip non-PNG names silently, one
record per remaining file. -/
def predict_batch (names : List String) : List BatchFile → List BatchRecord
  | [] => []
  | f :: fs =>
      if isPngName f.filename then batchRecord names f :: predict_batch names fs
      else predict_batch names fs

/-- Claim C6: a batch of N files of which M have non-PNG names yields
exactly N − M result records: the non-PNG names are skipped silently and
every PNG-named file contributes exactly one record whatever its decode
or inference outcome. -/
theorem predict_batch_count (names : List String) (files : List BatchFile) :
    (predict_batch names files).length
      = files.length - (files.filter (fun f => ! isPngName f.filename)).length := by
  induction files with
  | nil => rfl
  | cons f fs ih =>
    have hle := List.length_filter_le (fun g => ! isPngName g.filename) fs
    by_cases h : isPngName f.filename
    · simp [predict_batch, h, ih, List.filter_cons]
      omega
    · have hb : isPngName f.filename = false := by
        simpa using h
      simp [predict_batch, hb, ih, List.filter_cons]

end Telltale
